import Mathlib

/-!
Shallow embedding of the collapsible-sidebar component in
`src/components/core/Sidebar/Sidebar.tsx`.

JavaScript numbers appearing in the component are finite rationals,
`Infinity` (the default for `lastInnerWidth` when `window` is absent) or
`NaN` (the result of `parseInt` on a digit-free string); we model them by
the inductive type `JSNum`, with the JS comparison semantics (every
comparison involving `NaN` is false).  The global `window` object is an
`Option Window`; the DOM element referenced by `sidebarRef.current` is an
`Option DomElement`, recording for the event at hand whether the element
contains the event target.
-/

inductive JSNum : Type
| nan : JSNum
| inf : JSNum
| val : ℚ → JSNum
deriving DecidableEq, Repr

/-- JS `<` on the numbers that occur in the component
(finite values, `Infinity`, `NaN`). -/
def JSNum.lt : JSNum → JSNum → Bool
| .nan, _ => false
| _, .nan => false
| .val a, .val b => a < b
| .val _, .inf => true
| .inf, _ => false

/-- JS `<=` on the numbers that occur in the component. -/
def JSNum.le : JSNum → JSNum → Bool
| .nan, _ => false
| _, .nan => false
| .val a, .val b => a ≤ b
| .val _, .inf => true
| .inf, .inf => true
| .inf, .val _ => false

/-- JS truthiness of a number: `0` and `NaN` are falsy. -/
def JSNum.truthy : JSNum → Bool
| .nan => false
| .inf => true
| .val a => a ≠ 0

/-- Value of the digit list read in base 10. -/
def digitsToNat (cs : List Char) : Nat :=
  cs.foldl (fun acc c => acc * 10 + (c.toNat - 48)) 0

/-- JS `parseInt(s, 10)`: skip leading whitespace, read an optional sign and
then the longest run of decimal digits; `NaN` (here `none`) when that run is
empty. -/
def parseInt (s : String) : Option Int :=
  let cs := s.data.dropWhile Char.isWhitespace
  match cs with
  | '-' :: rest =>
      let ds := rest.takeWhile Char.isDigit
      if ds.isEmpty then none else some (-(digitsToNat ds : Int))
  | '+' :: rest =>
      let ds := rest.takeWhile Char.isDigit
      if ds.isEmpty then none else some (digitsToNat ds : Int)
  | _ =>
      let ds := cs.takeWhile Char.isDigit
      if ds.isEmpty then none else some (digitsToNat ds : Int)

namespace PageConfig

/-- `PageConfig.SidebarState`: the externally supplied initial-state
directive. -/
inductive SidebarState : Type
| EXPANDED : SidebarState
| COLLAPSED : SidebarState
| AUTO : SidebarState
deriving DecidableEq, Repr

end PageConfig

/-- The global `window` object, when present. -/
structure Window : Type where
  innerWidth : ℚ
deriving DecidableEq, Repr

/-- A DOM element, abstracted per event: `containsTarget` is the value of
`element.contains(event.target)` for the event being handled. -/
structure DomElement : Type where
  containsTarget : Bool
deriving DecidableEq, Repr

/-- The behavioural part of `SidebarProps`: the optional directive
(`initialSidebarState?`) and the theme breakpoint string
(`props.theme.breakpoints.md`). -/
structure SidebarProps : Type where
  initialSidebarState : Option PageConfig.SidebarState
  themeBreakpointsMd : String
deriving DecidableEq, Repr

namespace Sidebar

/-- The component's `State`. -/
structure State : Type where
  collapsedSidebar : Bool
  lastInnerWidth : JSNum
  hideScrollbar : Bool
deriving DecidableEq, Repr

/-- `Sidebar.calculateMaxBreakpoint`:
`parseInt(value, 10) - 0.02` (NaN when the string has no leading integer). -/
def calculateMaxBreakpoint (value : String) : JSNum :=
  match parseInt value with
  | none => .nan
  | some n => .val ((n : ℚ) - 2 / 100)

/-- `Sidebar.shouldCollapse(props, mediumBreakpointPx)`; the global `window`
is passed explicitly.  In the `AUTO`/default branch,
`const { innerWidth } = window || {}` yields `undefined` when `window` is
absent, and `innerWidth ? innerWidth <= mediumBreakpointPx : false` makes
both an absent and a zero (falsy) width return `false`. -/
def shouldCollapse (props : SidebarProps) (mediumBreakpointPx : JSNum)
    (window : Option Window) : Bool :=
  match props.initialSidebarState with
  | some .EXPANDED => false
  | some .COLLAPSED => true
  | some .AUTO | none =>
      match window with
      | none => false
      | some w =>
          if (JSNum.val w.innerWidth).truthy
          then JSNum.le (.val w.innerWidth) mediumBreakpointPx
          else false

/-- The constructor: computes `mediumBreakpointPx` from the theme breakpoint,
initialises `collapsedSidebar` via `shouldCollapse`, `lastInnerWidth` to
`window.innerWidth` (or `Infinity` without a `window`), and
`hideScrollbar` to `false`. -/
def init (props : SidebarProps) (window : Option Window) : State :=
  let mediumBreakpointPx := calculateMaxBreakpoint props.themeBreakpointsMd
  { collapsedSidebar := shouldCollapse props mediumBreakpointPx window
    lastInnerWidth := match window with
      | some w => .val w.innerWidth
      | none => .inf
    hideScrollbar := false }

/-- `componentDidUpdate`: recomputes `mediumBreakpointPx` and, exactly when
`initialSidebarState` changed, overwrites `collapsedSidebar` with
`shouldCollapse` on the new props. -/
def componentDidUpdate (prevProps props : SidebarProps)
    (window : Option Window) (s : State) : State :=
  let mediumBreakpointPx := calculateMaxBreakpoint props.themeBreakpointsMd
  if props.initialSidebarState ≠ prevProps.initialSidebarState then
    { s with collapsedSidebar := shouldCollapse props mediumBreakpointPx window }
  else s

/-- `handleClickOutside`: when `window` is present and `sidebarRef.current`
is a non-null element that does not contain the event target and
`innerWidth <= mediumBreakpointPx`, collapse; otherwise leave the state
unchanged. -/
def handleClickOutside (mediumBreakpointPx : JSNum) (window : Option Window)
    (current : Option DomElement) (s : State) : State :=
  match window with
  | none => s
  | some w =>
      match current with
      | none => s
      | some cur =>
          if !cur.containsTarget
              && JSNum.le (.val w.innerWidth) mediumBreakpointPx
          then { s with collapsedSidebar := true }
          else s

/-- `checkMobileOnResize`: returns `false` without touching the state when
`window` is absent; otherwise collapses when the new width is both strictly
below `lastInnerWidth` and `<= mediumBreakpointPx`, then records the new
width unconditionally, and returns `true`. -/
def checkMobileOnResize (mediumBreakpointPx : JSNum) (window : Option Window)
    (s : State) : State × Bool :=
  match window with
  | none => (s, false)
  | some w =>
      let innerWidth := w.innerWidth
      let s1 :=
        if JSNum.lt (.val innerWidth) s.lastInnerWidth
            && JSNum.le (.val innerWidth) mediumBreakpointPx
        then { s with collapsedSidebar := true }
        else s
      ({ s1 with lastInnerWidth := .val innerWidth }, true)

/-- `toggleCollapse`: negates `collapsedSidebar`. -/
def toggleCollapse (s : State) : State :=
  { s with collapsedSidebar := !s.collapsedSidebar }

/-- An event target a global listener can be attached to. -/
inductive EventTarget : Type
| window : EventTarget
| document : EventTarget
deriving DecidableEq, Repr

/-- An event type the component listens for. -/
inductive EventType : Type
| resize : EventType
| mousedown : EventType
deriving DecidableEq, Repr

/-- A handler function identity (reference equality of the bound methods). -/
inductive Handler : Type
| checkMobileOnResize : Handler
| handleClickOutside : Handler
deriving DecidableEq, Repr

/-- A registered global listener: target, event type and handler. -/
structure Listener : Type where
  target : EventTarget
  eventType : EventType
  handler : Handler
deriving DecidableEq, Repr

/-- DOM `addEventListener`: a no-op when the same (target, type, handler)
triple is already registered, otherwise appends it. -/
def addEventListener (l : Listener) (ls : List Listener) : List Listener :=
  if l ∈ ls then ls else ls ++ [l]

/-- DOM `removeEventListener`: removes the (target, type, handler) triple
(at most one copy can be registered, so filtering is exact). -/
def removeEventListener (l : Listener) (ls : List Listener) : List Listener :=
  ls.filter (fun x => x ≠ l)

/-- The listener registered by `window.addEventListener("resize",
this.checkMobileOnResize)`. -/
def resizeListener : Listener :=
  ⟨.window, .resize, .checkMobileOnResize⟩

/-- The listener registered by `document.addEventListener("mousedown",
this.handleClickOutside)`. -/
def mousedownListener : Listener :=
  ⟨.document, .mousedown, .handleClickOutside⟩

/-- `componentDidMount`: registers the resize and mousedown listeners. -/
def componentDidMount (ls : List Listener) : List Listener :=
  addEventListener mousedownListener (addEventListener resizeListener ls)

/-- `componentWillUnmount`: removes the same two listeners. -/
def componentWillUnmount (ls : List Listener) : List Listener :=
  removeEventListener mousedownListener (removeEventListener resizeListener ls)

end Sidebar

open Sidebar PageConfig

/-! ### Helper lemmas -/

/-- `parseInt("100px", 10)` reads the leading integer `100`. -/
lemma parseInt_100px : parseInt "100px" = some 100 := by rfl

/-- The derived threshold for the breakpoint string `"100px"` is
`100 - 0.02 = 99.98 = 4999/50`. -/
lemma calcBp100 :
    Sidebar.calculateMaxBreakpoint "100px" = JSNum.val (4999 / 50) := by
  rw [Sidebar.calculateMaxBreakpoint, parseInt_100px]
  norm_num

/-! ### Claim theorems -/

/-- C1 counterexample: the claim says that under `AUTO` with breakpoint
`"100px"` a viewport width of exactly 100 gives `collapsed = true`
(inclusive threshold).  The code compares against the derived threshold
`99.98`, so width 100 yields `false`. -/
theorem C1_counterexample :
    Sidebar.shouldCollapse ⟨some .AUTO, "100px"⟩
      (Sidebar.calculateMaxBreakpoint "100px") (some ⟨100⟩) = false := by
  rw [calcBp100]
  norm_num [Sidebar.shouldCollapse, JSNum.le, JSNum.truthy]

/-- C1 (amended): under `AUTO` with breakpoint `"100px"` and an available
non-zero viewport width `w`, the initial collapsed state is `true` iff
`w ≤ 99.98` (the derived threshold `100 - 0.02`); width 50 gives `true`,
width 150 gives `false`, and width exactly 100 gives `false` (the nominal
breakpoint value is excluded by the 0.02 margin). -/
theorem C1_auto_threshold (w : ℚ) (hw : w ≠ 0) :
    (Sidebar.shouldCollapse ⟨some .AUTO, "100px"⟩
        (Sidebar.calculateMaxBreakpoint "100px") (some ⟨w⟩) = true
      ↔ w ≤ 4999 / 50)
    ∧ Sidebar.shouldCollapse ⟨some .AUTO, "100px"⟩
        (Sidebar.calculateMaxBreakpoint "100px") (some ⟨50⟩) = true
    ∧ Sidebar.shouldCollapse ⟨some .AUTO, "100px"⟩
        (Sidebar.calculateMaxBreakpoint "100px") (some ⟨150⟩) = false
    ∧ Sidebar.shouldCollapse ⟨some .AUTO, "100px"⟩
        (Sidebar.calculateMaxBreakpoint "100px") (some ⟨100⟩) = false := by
  rw [calcBp100]
  refine ⟨?_, ?_, ?_, ?_⟩ <;>
    norm_num [Sidebar.shouldCollapse, JSNum.le, JSNum.truthy, hw]

/-- C1 witness: the amended theorem instantiated at width 50. -/
theorem C1_auto_threshold_witness :
    (50 : ℚ) ≠ 0 ∧
    ((Sidebar.shouldCollapse ⟨some .AUTO, "100px"⟩
        (Sidebar.calculateMaxBreakpoint "100px") (some ⟨50⟩) = true
      ↔ (50 : ℚ) ≤ 4999 / 50)
    ∧ Sidebar.shouldCollapse ⟨some .AUTO, "100px"⟩
        (Sidebar.calculateMaxBreakpoint "100px") (some ⟨50⟩) = true
    ∧ Sidebar.shouldCollapse ⟨some .AUTO, "100px"⟩
        (Sidebar.calculateMaxBreakpoint "100px") (some ⟨150⟩) = false
    ∧ Sidebar.shouldCollapse ⟨some .AUTO, "100px"⟩
        (Sidebar.calculateMaxBreakpoint "100px") (some ⟨100⟩) = false) :=
  ⟨by norm_num, C1_auto_threshold 50 (by norm_num)⟩

/-- C2: for every breakpoint, window and state, the resize handler leaves
`collapsedSidebar = true` exactly when the previous value was `true` or the
new width is both strictly below the recorded last width and at most the
breakpoint; the recorded last width becomes the new width in every case
(so a widening resize never turns `collapsedSidebar` to `false`); concretely,
narrowing 200 → 80 with breakpoint `"100px"` forces collapse and widening
80 → 200 leaves the collapse flag as it was. -/
theorem C2_resize (bp : JSNum) (win : Window) (s : Sidebar.State)
    (c b : Bool) :
    (Sidebar.checkMobileOnResize bp (some win) s).1.collapsedSidebar =
      ((JSNum.lt (.val win.innerWidth) s.lastInnerWidth
          && JSNum.le (.val win.innerWidth) bp) || s.collapsedSidebar)
    ∧ (Sidebar.checkMobileOnResize bp (some win) s).1.lastInnerWidth =
        JSNum.val win.innerWidth
    ∧ (Sidebar.checkMobileOnResize bp (some win) s).1.hideScrollbar =
        s.hideScrollbar
    ∧ (Sidebar.checkMobileOnResize bp (some win) s).2 = true
    ∧ (Sidebar.checkMobileOnResize (Sidebar.calculateMaxBreakpoint "100px")
        (some ⟨80⟩) ⟨c, .val 200, b⟩).1.collapsedSidebar = true
    ∧ (Sidebar.checkMobileOnResize (Sidebar.calculateMaxBreakpoint "100px")
        (some ⟨200⟩) ⟨c, .val 80, b⟩).1.collapsedSidebar = c := by
  refine ⟨?_, ?_, ?_, ?_, ?_, ?_⟩
  · cases hc : (JSNum.lt (.val win.innerWidth) s.lastInnerWidth
        && JSNum.le (.val win.innerWidth) bp) <;>
      simp [Sidebar.checkMobileOnResize, hc]
  · cases hc : (JSNum.lt (.val win.innerWidth) s.lastInnerWidth
        && JSNum.le (.val win.innerWidth) bp) <;>
      simp [Sidebar.checkMobileOnResize, hc]
  · cases hc : (JSNum.lt (.val win.innerWidth) s.lastInnerWidth
        && JSNum.le (.val win.innerWidth) bp) <;>
      simp [Sidebar.checkMobileOnResize, hc]
  · simp [Sidebar.checkMobileOnResize]
  · rw [calcBp100]
    norm_num [Sidebar.checkMobileOnResize, JSNum.lt, JSNum.le]
  · rw [calcBp100]
    norm_num [Sidebar.checkMobileOnResize, JSNum.lt, JSNum.le]

/-- C3: for every breakpoint, window, non-null root element and state, the
pointer-down handler collapses exactly when the root does not contain the
target and the width is at most the breakpoint, and otherwise returns the
state unchanged; concretely, an outside pointer-down at width 80 with
breakpoint `"100px"` collapses, while the same event at width 200 leaves the
state untouched. -/
theorem C3_clickOutside (bp : JSNum) (win : Window) (cur : DomElement)
    (s : Sidebar.State) :
    ((!cur.containsTarget && JSNum.le (.val win.innerWidth) bp) = true →
      (Sidebar.handleClickOutside bp (some win) (some cur) s).collapsedSidebar
        = true)
    ∧ ((!cur.containsTarget && JSNum.le (.val win.innerWidth) bp) = false →
      Sidebar.handleClickOutside bp (some win) (some cur) s = s)
    ∧ (Sidebar.handleClickOutside (Sidebar.calculateMaxBreakpoint "100px")
        (some ⟨80⟩) (some ⟨false⟩) s).collapsedSidebar = true
    ∧ Sidebar.handleClickOutside (Sidebar.calculateMaxBreakpoint "100px")
        (some ⟨200⟩) (some ⟨false⟩) s = s := by
  refine ⟨?_, ?_, ?_, ?_⟩
  · intro hc
    simp [Sidebar.handleClickOutside, hc]
  · intro hc
    simp [Sidebar.handleClickOutside, hc]
  · rw [calcBp100]
    norm_num [Sidebar.handleClickOutside, JSNum.le]
  · rw [calcBp100]
    norm_num [Sidebar.handleClickOutside, JSNum.le]

/-- C3 witness: the theorem instantiated at breakpoint 99.98, width 80, an
element not containing the target, and a concrete expanded state. -/
theorem C3_clickOutside_witness :
    ((!DomElement.containsTarget ⟨false⟩
        && JSNum.le (.val (⟨80⟩ : Window).innerWidth) (.val (4999 / 50))) = true →
      (Sidebar.handleClickOutside (.val (4999 / 50)) (some ⟨80⟩) (some ⟨false⟩)
        ⟨false, .val 80, false⟩).collapsedSidebar = true)
    ∧ ((!DomElement.containsTarget ⟨false⟩
        && JSNum.le (.val (⟨80⟩ : Window).innerWidth) (.val (4999 / 50))) = false →
      Sidebar.handleClickOutside (.val (4999 / 50)) (some ⟨80⟩) (some ⟨false⟩)
        ⟨false, .val 80, false⟩ = ⟨false, .val 80, false⟩)
    ∧ (Sidebar.handleClickOutside (Sidebar.calculateMaxBreakpoint "100px")
        (some ⟨80⟩) (some ⟨false⟩) ⟨false, .val 80, false⟩).collapsedSidebar = true
    ∧ Sidebar.handleClickOutside (Sidebar.calculateMaxBreakpoint "100px")
        (some ⟨200⟩) (some ⟨false⟩) ⟨false, .val 80, false⟩
        = ⟨false, .val 80, false⟩ :=
  C3_clickOutside (.val (4999 / 50)) ⟨80⟩ ⟨false⟩ ⟨false, .val 80, false⟩

/-- C4: whenever `initialSidebarState` differs between updates,
`componentDidUpdate` recomputes `collapsedSidebar` via `shouldCollapse` on
the new props, breakpoint and window, independently of the previously
accumulated state (two runs from different prior states agree). -/
theorem C4_directiveChange (prev props : SidebarProps) (win : Option Window)
    (s t : Sidebar.State)
    (h : props.initialSidebarState ≠ prev.initialSidebarState) :
    (Sidebar.componentDidUpdate prev props win s).collapsedSidebar =
      Sidebar.shouldCollapse props
        (Sidebar.calculateMaxBreakpoint props.themeBreakpointsMd) win
    ∧ (Sidebar.componentDidUpdate prev props win s).collapsedSidebar =
        (Sidebar.componentDidUpdate prev props win t).collapsedSidebar := by
  constructor <;> simp [Sidebar.componentDidUpdate, h]

/-- C4 witness: the directive changes from `EXPANDED` to `COLLAPSED`, from a
user-expanded state and a user-collapsed state. -/
theorem C4_directiveChange_witness :
    (⟨some .COLLAPSED, "100px"⟩ : SidebarProps).initialSidebarState ≠
      (⟨some .EXPANDED, "100px"⟩ : SidebarProps).initialSidebarState
    ∧ ((Sidebar.componentDidUpdate ⟨some .EXPANDED, "100px"⟩
          ⟨some .COLLAPSED, "100px"⟩ (some ⟨200⟩)
          ⟨false, .val 200, false⟩).collapsedSidebar =
        Sidebar.shouldCollapse ⟨some .COLLAPSED, "100px"⟩
          (Sidebar.calculateMaxBreakpoint
            (⟨some .COLLAPSED, "100px"⟩ : SidebarProps).themeBreakpointsMd)
          (some ⟨200⟩)
      ∧ (Sidebar.componentDidUpdate ⟨some .EXPANDED, "100px"⟩
          ⟨some .COLLAPSED, "100px"⟩ (some ⟨200⟩)
          ⟨false, .val 200, false⟩).collapsedSidebar =
        (Sidebar.componentDidUpdate ⟨some .EXPANDED, "100px"⟩
          ⟨some .COLLAPSED, "100px"⟩ (some ⟨200⟩)
          ⟨true, .val 200, false⟩).collapsedSidebar) :=
  ⟨by decide,
   C4_directiveChange ⟨some .EXPANDED, "100px"⟩ ⟨some .COLLAPSED, "100px"⟩
     (some ⟨200⟩) ⟨false, .val 200, false⟩ ⟨true, .val 200, false⟩ (by decide)⟩

/-- C5: a single `toggleCollapse` negates `collapsedSidebar` and two
consecutive invocations restore the entire state. -/
theorem C5_toggle (s : Sidebar.State) :
    (Sidebar.toggleCollapse s).collapsedSidebar = !s.collapsedSidebar
    ∧ Sidebar.toggleCollapse (Sidebar.toggleCollapse s) = s := by
  constructor <;> simp [Sidebar.toggleCollapse]

/-- C6: for every breakpoint string, breakpoint value and window state, the
`EXPANDED` directive yields `collapsed = false` and the `COLLAPSED`
directive yields `collapsed = true`, regardless of the viewport width. -/
theorem C6_fixedDirectives (bpStr : String) (bp : JSNum)
    (win : Option Window) :
    Sidebar.shouldCollapse ⟨some .EXPANDED, bpStr⟩ bp win = false
    ∧ Sidebar.shouldCollapse ⟨some .COLLAPSED, bpStr⟩ bp win = true := by
  constructor <;> rfl

/-- C7: `calculateMaxBreakpoint` is a pure function of the breakpoint string
that subtracts exactly 0.02 from the parsed leading integer; in particular
`calculateMaxBreakpoint "100px"` equals `99.98 = 4999/50`. -/
theorem C7_breakpoint (v : String) (n : ℤ) (h : parseInt v = some n) :
    Sidebar.calculateMaxBreakpoint v = JSNum.val ((n : ℚ) - 2 / 100)
    ∧ parseInt "100px" = some 100
    ∧ Sidebar.calculateMaxBreakpoint "100px" = JSNum.val (4999 / 50)
    ∧ (4999 / 50 : ℚ) = 99.98 := by
  refine ⟨?_, parseInt_100px, calcBp100, by norm_num⟩
  rw [Sidebar.calculateMaxBreakpoint, h]

/-- C7 witness: instantiated at the theme string `"100px"`. -/
theorem C7_breakpoint_witness :
    parseInt "100px" = some 100
    ∧ (Sidebar.calculateMaxBreakpoint "100px" = JSNum.val ((100 : ℚ) - 2 / 100)
      ∧ parseInt "100px" = some 100
      ∧ Sidebar.calculateMaxBreakpoint "100px" = JSNum.val (4999 / 50)
      ∧ (4999 / 50 : ℚ) = 99.98) :=
  ⟨by rfl, C7_breakpoint "100px" 100 (by rfl)⟩

/-- C8: without a `window`, construction raises no failure and applies the
defensive defaults: `lastInnerWidth` is `Infinity`, the `AUTO` (or unset)
rule yields `collapsed = false`, and the resize handler returns `false`
leaving the state unchanged. -/
theorem C8_noWindow (bpStr : String) (props : SidebarProps) (bp : JSNum)
    (s : Sidebar.State) :
    (Sidebar.init ⟨some .AUTO, bpStr⟩ none).collapsedSidebar = false
    ∧ (Sidebar.init ⟨none, bpStr⟩ none).collapsedSidebar = false
    ∧ (Sidebar.init props none).lastInnerWidth = JSNum.inf
    ∧ Sidebar.checkMobileOnResize bp none s = (s, false) := by
  refine ⟨rfl, rfl, ?_, rfl⟩
  rw [Sidebar.init]

/-- C9: mounting registers exactly the window-resize and document-mousedown
listeners (two new registrations), and unmounting removes the same two
handler functions from the same targets and event types, so after unmount no
listener referencing the component remains. -/
theorem C9_listeners (ls : List Sidebar.Listener)
    (h1 : Sidebar.resizeListener ∉ ls) (h2 : Sidebar.mousedownListener ∉ ls) :
    Sidebar.resizeListener ∈ Sidebar.componentDidMount ls
    ∧ Sidebar.mousedownListener ∈ Sidebar.componentDidMount ls
    ∧ (Sidebar.componentDidMount ls).length = ls.length + 2
    ∧ Sidebar.componentWillUnmount (Sidebar.componentDidMount ls) = ls
    ∧ Sidebar.resizeListener ∉
        Sidebar.componentWillUnmount (Sidebar.componentDidMount ls)
    ∧ Sidebar.mousedownListener ∉
        Sidebar.componentWillUnmount (Sidebar.componentDidMount ls) := by
  have hne : Sidebar.mousedownListener ≠ Sidebar.resizeListener := by decide
  have haddr : Sidebar.addEventListener Sidebar.resizeListener ls
      = ls ++ [Sidebar.resizeListener] := by
    rw [Sidebar.addEventListener, if_neg h1]
  have hmnotin : Sidebar.mousedownListener ∉ ls ++ [Sidebar.resizeListener] := by
    simp [h2, hne]
  have hmount : Sidebar.componentDidMount ls
      = ls ++ [Sidebar.resizeListener, Sidebar.mousedownListener] := by
    rw [Sidebar.componentDidMount, haddr, Sidebar.addEventListener,
      if_neg hmnotin]
    simp
  have hfr : ls.filter (fun x => x ≠ Sidebar.resizeListener) = ls := by
    apply List.filter_eq_self.mpr
    intro a ha
    simp only [ne_eq, decide_eq_true_eq]
    intro e
    exact h1 (e ▸ ha)
  have hfm : ls.filter (fun x => x ≠ Sidebar.mousedownListener) = ls := by
    apply List.filter_eq_self.mpr
    intro a ha
    simp only [ne_eq, decide_eq_true_eq]
    intro e
    exact h2 (e ▸ ha)
  have htail1 : List.filter (fun x => decide (x ≠ Sidebar.resizeListener))
      [Sidebar.resizeListener, Sidebar.mousedownListener]
      = [Sidebar.mousedownListener] := by decide
  have htail2 : List.filter (fun x => decide (x ≠ Sidebar.mousedownListener))
      [Sidebar.mousedownListener] = [] := by decide
  have hrem1 : Sidebar.removeEventListener Sidebar.resizeListener
      (ls ++ [Sidebar.resizeListener, Sidebar.mousedownListener])
      = ls ++ [Sidebar.mousedownListener] := by
    rw [Sidebar.removeEventListener, List.filter_append, hfr, htail1]
  have hrem2 : Sidebar.removeEventListener Sidebar.mousedownListener
      (ls ++ [Sidebar.mousedownListener]) = ls := by
    rw [Sidebar.removeEventListener, List.filter_append, hfm, htail2,
      List.append_nil]
  have hunmount : Sidebar.componentWillUnmount (Sidebar.componentDidMount ls)
      = ls := by
    rw [hmount, Sidebar.componentWillUnmount, hrem1, hrem2]
  refine ⟨?_, ?_, ?_, hunmount, ?_, ?_⟩
  · rw [hmount]; simp
  · rw [hmount]; simp
  · rw [hmount]; simp
  · rw [hunmount]; exact h1
  · rw [hunmount]; exact h2

/-- C9 witness: mount and unmount starting from an empty listener table. -/
theorem C9_listeners_witness :
    (Sidebar.resizeListener ∉ ([] : List Sidebar.Listener)
      ∧ Sidebar.mousedownListener ∉ ([] : List Sidebar.Listener))
    ∧ (Sidebar.resizeListener ∈ Sidebar.componentDidMount []
      ∧ Sidebar.mousedownListener ∈ Sidebar.componentDidMount []
      ∧ (Sidebar.componentDidMount ([] : List Sidebar.Listener)).length
          = ([] : List Sidebar.Listener).length + 2
      ∧ Sidebar.componentWillUnmount (Sidebar.componentDidMount []) = []
      ∧ Sidebar.resizeListener ∉
          Sidebar.componentWillUnmount (Sidebar.componentDidMount [])
      ∧ Sidebar.mousedownListener ∉
          Sidebar.componentWillUnmount (Sidebar.componentDidMount [])) :=
  ⟨⟨by decide, by decide⟩, C9_listeners [] (by decide) (by decide)⟩

/-- C10: under `AUTO`, a present `window` whose `innerWidth` is 0 is treated
as an unavailable (falsy) width and `shouldCollapse` returns `false` for
every breakpoint value, even though 0 is below the positive derived
threshold 99.98 of breakpoint `"100px"`. -/
theorem C10_zeroWidth (bp : JSNum) (bpStr : String) :
    Sidebar.shouldCollapse ⟨some .AUTO, bpStr⟩ bp (some ⟨0⟩) = false
    ∧ JSNum.le (.val 0) (Sidebar.calculateMaxBreakpoint "100px") = true := by
  constructor
  · simp [Sidebar.shouldCollapse, JSNum.truthy]
  · rw [calcBp100]
    norm_num [JSNum.le]
